import Mathlib

/-!
# Verification of the MAAS interface / IP-address-link subsystem

Shallow embedding of `src/maasserver/models/interface.py` (the link state
machine on `Interface` and the per-type `clean` validation of the interface
subclasses), together with theorems settling the frozen claims about it.

Conventions of the embedding:
* IP addresses and MAC addresses are modelled as `Nat`; a CIDR network is the
  address interval `[lo, hi]` of a `Subnet`.
* A Django `StaticIPAddress` row is a `SIP` record; `ip = none` models a NULL
  (or empty) IP column, `subnet = none` a NULL subnet reference.
* The mutable Django state touched by an `Interface`'s link operations is a
  `State`: the interface's own `ip_addresses` m2m set (`links`, in creation
  order as the model's `ordering = ('created',)` returns them), every other
  `StaticIPAddress` row of the database (`others`), the interface's `vlan`
  and `enabled` fields and a fresh-primary-key source `nextId`.
* Python exceptions become `Except LinkError`; `StaticIPAddressOutOfRange`
  is `.outOfRange`, `StaticIPAddressUnavailable` is `.addressUnavailable`,
  the allocator's exhaustion failure is `.poolExhausted` and `ValueError` is
  `.valueError`.
* The `user` column of USER_RESERVED addresses and the logging side effects
  are not modelled; no claim depends on them.
-/

namespace Maas

/-- `IPADDRESS_TYPE` (maasserver.enum): allocation type of a StaticIPAddress. -/
inductive AllocType
  | STICKY
  | USER_RESERVED
  | DHCP
  | AUTO
  | DISCOVERED
deriving DecidableEq, Repr

/-- `INTERFACE_LINK_TYPE` vocabulary together with the DISCOVERED view of §3
of the spec: the derived "link type" of an address record. -/
inductive LinkType
  | AUTO
  | DHCP
  | STATIC
  | LINK_UP
  | DISCOVERED
deriving DecidableEq, Repr

/-- A subnet: its primary key, parent VLAN, address family
(`get_ipnetwork().version`), CIDR address interval and dynamic ranges. -/
structure Subnet where
  id : Nat
  vlanId : Nat
  family : Nat
  lo : Nat
  hi : Nat
  dynamicRanges : List (Nat × Nat)
deriving DecidableEq, Repr

/-- `ip_address in subnet.get_ipnetwork()`: CIDR membership. -/
def Subnet.containsIp (s : Subnet) (ip : Nat) : Bool :=
  s.lo ≤ ip && ip ≤ s.hi

/-- `Subnet.get_dynamic_range_for_ip`: the first dynamic range holding `ip`. -/
def Subnet.getDynamicRangeForIp (s : Subnet) (ip : Nat) : Option (Nat × Nat) :=
  s.dynamicRanges.find? (fun r => r.1 ≤ ip && ip ≤ r.2)

/-- A `StaticIPAddress` row. -/
structure SIP where
  id : Nat
  alloc_type : AllocType
  ip : Option Nat
  subnet : Option Subnet
deriving DecidableEq, Repr

/-- Modelled from the spec: `StaticIPAddress.get_interface_link_type` is not
among the given sources (only its callers are). §3 of the spec gives the
derived mapping: `ip set & STICKY → STATIC; ip unset & STICKY → LINK_UP;
DHCP → DHCP; AUTO → AUTO; DISCOVERED → DISCOVERED`. USER_RESERVED rows carry
an ip and are viewed as STATIC links. -/
def SIP.get_interface_link_type (r : SIP) : LinkType :=
  match r.alloc_type with
  | .AUTO => .AUTO
  | .DHCP => .DHCP
  | .DISCOVERED => .DISCOVERED
  | .STICKY => if r.ip.isSome then .STATIC else .LINK_UP
  | .USER_RESERVED => if r.ip.isSome then .STATIC else .LINK_UP

/-- Error vocabulary of the link state machine (§7 of the spec maps
`StaticIPAddressOutOfRange` to OutOfRange and `StaticIPAddressUnavailable`
to AddressUnavailable). -/
inductive LinkError
  | outOfRange
  | addressUnavailable
  | poolExhausted
  | valueError
deriving DecidableEq, Repr

/-- The state an interface's link operations read and write. -/
structure State where
  links : List SIP
  others : List SIP
  vlan : Option Nat
  enabled : Bool
  nextId : Nat
deriving DecidableEq, Repr

/-- All `StaticIPAddress` rows of the database. -/
def State.globalRecords (st : State) : List SIP :=
  st.links ++ st.others

/-- `self.ip_addresses.exclude(alloc_type=IPADDRESS_TYPE.DISCOVERED)`. -/
def State.nonDiscovered (st : State) : List SIP :=
  st.links.filter (fun r => r.alloc_type != .DISCOVERED)

/-- `get_subnet_family` (source lines 73-78). -/
def get_subnet_family : Option Subnet → Option Nat
  | some s => some s.family
  | none => none

/-- The per-record removal condition of `Interface._remove_link_dhcp`
(source lines 632-640): a non-DISCOVERED record whose link type is DHCP and
whose subnet is absent or in the requested family. -/
def dhcpRemovable (fam : Option Nat) (r : SIP) : Bool :=
  r.alloc_type != .DISCOVERED &&
  r.get_interface_link_type == .DHCP &&
  (match fam, r.subnet with
   | none, _ => true
   | some _, none => true
   | some f, some sub => sub.family == f)

/-- The per-record removal condition of `Interface._remove_link_up`
(source lines 642-648). -/
def linkUpRemovable (r : SIP) : Bool :=
  r.alloc_type != .DISCOVERED && r.get_interface_link_type == .LINK_UP

/-- `Interface._remove_link_dhcp` (source lines 632-640). -/
def State.remove_link_dhcp (st : State) (fam : Option Nat) : State :=
  { st with links := st.links.filter (fun r => !dhcpRemovable fam r) }

/-- `Interface._remove_link_up` (source lines 642-648). -/
def State.remove_link_up (st : State) : State :=
  { st with links := st.links.filter (fun r => !linkUpRemovable r) }

/-- `Interface._link_subnet_auto` (source lines 650-658). -/
def State.link_subnet_auto (st : State) (subnet : Option Subnet) : State × SIP :=
  let ip_address : SIP := ⟨st.nextId, .AUTO, none, subnet⟩
  let st1 : State := { st with links := st.links ++ [ip_address], nextId := st.nextId + 1 }
  let st2 := st1.remove_link_dhcp (get_subnet_family subnet)
  (st2.remove_link_up, ip_address)

/-- `Interface._link_subnet_dhcp` (source lines 660-668). -/
def State.link_subnet_dhcp (st : State) (subnet : Option Subnet) : State × SIP :=
  let st1 := st.remove_link_dhcp (get_subnet_family subnet)
  let ip_address : SIP := ⟨st1.nextId, .DHCP, none, subnet⟩
  let st2 : State := { st1 with links := st1.links ++ [ip_address], nextId := st1.nextId + 1 }
  (st2.remove_link_up, ip_address)

/-- The candidate test of the spec-modelled allocator (see `allocate_new`):
not excluded, not already held live, and outside dynamic ranges for AUTO or
DHCP allocation. -/
def allocGood (globalRecs : List SIP) (sub : Subnet) (alloc_type : AllocType)
    (exclude_addresses : List Nat) (c : Nat) : Bool :=
  !exclude_addresses.contains c &&
  !globalRecs.any (fun r => r.ip == some c && r.alloc_type != .DISCOVERED) &&
  (if alloc_type == .AUTO || alloc_type == .DHCP
    then (sub.getDynamicRangeForIp c).isNone else true)

/-- Modelled from the spec: `StaticIPAddress.objects.allocate_new` is not
among the given sources (only its callers are). Per §4.2 of the spec,
`allocate(subnet, allocType, excludeAddrs)` returns one address of `subnet`
that is not in `excludeAddrs`, not already linked as a live (non-DISCOVERED)
address, and not inside a reserved dynamic range when the allocation type is
AUTO or DHCP; it fails with PoolExhausted when no candidate remains. -/
def allocate_new (globalRecs : List SIP) (subnet : Option Subnet)
    (alloc_type : AllocType) (exclude_addresses : List Nat) :
    Except LinkError Nat :=
  match subnet with
  | none => .error .valueError
  | some sub =>
    match ((List.range (sub.hi + 1 - sub.lo)).map (· + sub.lo)).find?
        (allocGood globalRecs sub alloc_type exclude_addresses) with
    | some c => .ok c
    | none => .error .poolExhausted

/-- The tail of `Interface._link_subnet_static` (source lines 718-728): the
optional id swap with `swap_static_ip` — the freshly saved record takes over
the primary key of the swapped-out record, whose row is deleted — followed by
the removal of same-family DHCP links and of the LINK_UP link. -/
def finishStatic (st : State) (static_ip : SIP) (swap_static_ip : Option SIP)
    (subnet : Option Subnet) : State × SIP :=
  let swapped :=
    match swap_static_ip with
    | some old =>
      let freshId := static_ip.id
      let snew : SIP := { static_ip with id := old.id }
      let upd := fun (r : SIP) => if r.id == old.id then snew else r
      ({ st with
          links := (st.links.filter (fun (r : SIP) => r.id != freshId)).map upd,
          others := (st.others.filter (fun (r : SIP) => r.id != freshId)).map upd },
        snew)
    | none => (st, static_ip)
  let st2 := swapped.1.remove_link_dhcp (get_subnet_family subnet)
  (st2.remove_link_up, swapped.2)

/-- The `get_or_create` step of `Interface._link_subnet_static` (source lines
699-712): if any address record already holds the requested ip the source
raises `StaticIPAddressUnavailable`; otherwise a fresh record with the
requested ip is created and linked, and the swap/cleanup tail runs. -/
def staticClaimRequested (st : State) (subnet : Option Subnet) (ipa : Nat)
    (at0 : AllocType) (swap_static_ip : Option SIP) :
    Except LinkError (State × SIP) :=
  if st.globalRecords.any (fun r => r.ip == some ipa) then
    .error .addressUnavailable
  else
    let static_ip : SIP := ⟨st.nextId, at0, some ipa, subnet⟩
    let st1 : State :=
      { st with links := st.links ++ [static_ip], nextId := st.nextId + 1 }
    .ok (finishStatic st1 static_ip swap_static_ip subnet)

/-- The allocation step of `Interface._link_subnet_static` with no requested
ip (source lines 713-716): allocate from the pool, link the new record, and
run the swap/cleanup tail. -/
def staticAllocated (st : State) (subnet : Option Subnet) (at0 : AllocType)
    (swap_static_ip : Option SIP) : Except LinkError (State × SIP) :=
  match allocate_new st.globalRecords subnet at0 [] with
  | .error e => .error e
  | .ok c =>
    let static_ip : SIP := ⟨st.nextId, at0, some c, subnet⟩
    let st1 : State :=
      { st with links := st.links ++ [static_ip], nextId := st.nextId + 1 }
    .ok (finishStatic st1 static_ip swap_static_ip subnet)

/-- `Interface._link_subnet_static` (source lines 670-728). -/
def State.link_subnet_static (st : State) (subnet : Option Subnet)
    (ip_address : Option Nat) (alloc_type : Option AllocType)
    (swap_static_ip : Option SIP) : Except LinkError (State × SIP) :=
  if !(alloc_type == none || alloc_type == some .STICKY ||
      alloc_type == some .USER_RESERVED) then
    .error .valueError
  else
    let at0 := alloc_type.getD .STICKY
    match ip_address with
    | some ipa =>
      match subnet with
      | some sub =>
        if !sub.containsIp ipa then .error .outOfRange
        else if (sub.getDynamicRangeForIp ipa).isSome then .error .outOfRange
        else staticClaimRequested st (some sub) ipa at0 swap_static_ip
      | none => staticClaimRequested st none ipa at0 swap_static_ip
    | none => staticAllocated st subnet at0 swap_static_ip

/-- `Interface._link_subnet_link_up` (source lines 730-739). -/
def State.link_subnet_link_up (st : State) (subnet : Option Subnet) : State × SIP :=
  let st1 := st.remove_link_up
  let ip_address : SIP := ⟨st1.nextId, .STICKY, none, subnet⟩
  let st2 : State := { st1 with links := st1.links ++ [ip_address], nextId := st1.nextId + 1 }
  (st2.remove_link_dhcp (get_subnet_family subnet), ip_address)

/-- `Interface.link_subnet` (source lines 741-767): dispatch per mode.
`DISCOVERED` is not a linkable mode; the source's else branch raises
`ValueError("Unknown mode")`. -/
def State.link_subnet (st : State) (mode : LinkType) (subnet : Option Subnet)
    (ip_address : Option Nat) (alloc_type : Option AllocType) :
    Except LinkError (State × SIP) :=
  match mode with
  | .AUTO => .ok (st.link_subnet_auto subnet)
  | .DHCP => .ok (st.link_subnet_dhcp subnet)
  | .STATIC => st.link_subnet_static subnet ip_address alloc_type none
  | .LINK_UP => .ok (st.link_subnet_link_up subnet)
  | .DISCOVERED => .error .valueError

/-- The LINK_UP shape test of `Interface.ensure_link_up` (source lines
795-796): a STICKY record with no ip. -/
def isLinkUpShape (r : SIP) : Bool :=
  r.alloc_type == .STICKY && r.ip == none

/-- The discovered-address filter of `Interface.ensure_link_up` (source lines
807-809): a DISCOVERED record whose subnet sits on VLAN `v`. -/
def discOnVlan (v : Nat) (r : SIP) : Bool :=
  r.alloc_type == .DISCOVERED &&
  (match r.subnet with
   | some sub => sub.vlanId == v
   | none => false)

/-- `Interface.ensure_link_up` (source lines 785-814). -/
def State.ensure_link_up (st : State) : State :=
  let links := st.nonDiscovered
  if links.length > 0 then
    let link_ups := links.filter isLinkUpShape
    let others := links.filter (fun r => !isLinkUpShape r)
    if link_ups.length > 0 && others.length > 0 then
      { st with links := st.links.filter (fun r => !link_ups.any (fun l => l.id == r.id)) }
    else st
  else
    match st.vlan with
    | none => st
    | some v =>
      let discovered_address := st.links.find? (discOnVlan v)
      let subnet := discovered_address.bind (fun r => r.subnet)
      (st.link_subnet_link_up subnet).1

/-- Deletion of one `StaticIPAddress` row linked to the interface. -/
def State.deleteLink (st : State) (r : SIP) : State :=
  { st with links := st.links.filter (fun x => x.id != r.id) }

/-- `Interface._unlink_static_ip` (source lines 816-826). -/
def State.unlink_static_ip (st : State) (static_ip : SIP)
    (swap_alloc_type : Option AllocType) : State × SIP :=
  match swap_alloc_type with
  | some t =>
    let snew : SIP := { static_ip with alloc_type := t, ip := none }
    ({ st with links := st.links.map (fun r => if r.id == static_ip.id then snew else r) },
      snew)
  | none => (st.deleteLink static_ip, static_ip)

/-- `Interface.unlink_ip_address` (source lines 828-844). -/
def State.unlink_ip_address (st : State) (ip_address : SIP)
    (clearing_config : Bool) : State :=
  let mode := ip_address.get_interface_link_type
  let st1 :=
    if mode == .STATIC then (st.unlink_static_ip ip_address none).1
    else st.deleteLink ip_address
  if st1.enabled && !clearing_config then st1.ensure_link_up else st1

/-- `Interface.clear_all_links` (source lines 908-912): unlink every
non-DISCOVERED record of the queryset snapshot taken at entry. -/
def State.clear_all_links (st : State) (clearing_config : Bool) : State :=
  st.nonDiscovered.foldl (fun s r => s.unlink_ip_address r clearing_config) st

/-- `Interface._swap_subnet` (source lines 851-863). -/
def State.swap_subnet (st : State) (static_ip : SIP) (subnet : Option Subnet)
    (ip_address : Option Nat) : Except LinkError (State × SIP) :=
  match ip_address with
  | some ipa =>
    if st.globalRecords.any (fun r => r.ip == some ipa) then
      .error .addressUnavailable
    else st.link_subnet_static subnet (some ipa) none (some static_ip)
  | none => st.link_subnet_static subnet none none (some static_ip)

/-- Python model-instance equality of an optional subnet reference
(`static_ip.subnet == subnet`): primary-key comparison, None equal to None. -/
def subnetEq : Option Subnet → Option Subnet → Bool
  | none, none => true
  | some a, some b => a.id == b.id
  | _, _ => false

/-- The `new_alloc_type` table of `Interface.update_ip_address`
(source lines 868-873). -/
def newAllocForMode (mode : LinkType) : AllocType :=
  match mode with
  | .AUTO => .AUTO
  | .DHCP => .DHCP
  | .LINK_UP => .STICKY
  | .STATIC => .STICKY
  | .DISCOVERED => .STICKY

/-- The tail of `Interface.update_ip_address` (source lines 896-900): the
record's alloc_type, ip and subnet are reassigned in place and saved. -/
def updateTail (st : State) (static_ip : SIP) (new_alloc_type : AllocType)
    (subnet : Option Subnet) : State × SIP :=
  let snew : SIP := { static_ip with alloc_type := new_alloc_type, ip := none, subnet := subnet }
  ({ st with links := st.links.map (fun r => if r.id == static_ip.id then snew else r) },
    snew)

/-- `Interface.update_ip_address` (source lines 865-900). A DISCOVERED mode
argument leaves the source's `new_alloc_type` unbound and can only crash;
it is mapped to `.error .valueError` and is exercised by no claim. -/
def State.update_ip_address (st : State) (static_ip : SIP) (mode : LinkType)
    (subnet : Option Subnet) (ip_address : Option Nat) :
    Except LinkError (State × SIP) :=
  if mode == .DISCOVERED then .error .valueError
  else
    let new_alloc_type := newAllocForMode mode
    let current_mode := static_ip.get_interface_link_type
    if current_mode == .STATIC then
      if mode == .STATIC then
        if subnetEq static_ip.subnet subnet &&
            (ip_address == none || static_ip.ip == ip_address) then
          .ok (st, static_ip)
        else st.swap_subnet static_ip subnet ip_address
      else
        let unl := st.unlink_static_ip static_ip (some new_alloc_type)
        .ok (updateTail unl.1 unl.2 new_alloc_type subnet)
    else if mode == .STATIC then
      st.link_subnet_static subnet ip_address none (some static_ip)
    else
      .ok (updateTail st static_ip new_alloc_type subnet)

/-- `Interface._claim_auto_ip` (source lines 934-956). With no subnet on the
AUTO record, the source raises `StaticIPAddressUnavailable` (lines 941-943). -/
def State.claim_auto_ip (st : State) (auto_ip : SIP)
    (exclude_addresses : List Nat) : Except LinkError (State × SIP) :=
  match auto_ip.subnet with
  | none => .error .addressUnavailable
  | some subnet =>
    match allocate_new st.globalRecords (some subnet) .AUTO exclude_addresses with
    | .error e => .error e
    | .ok c =>
      let new_ip : SIP := ⟨st.nextId, .AUTO, some c, some subnet⟩
      let st1 : State := { st with links := st.links ++ [new_ip], nextId := st.nextId + 1 }
      .ok (st1.deleteLink auto_ip, new_ip)

/-- The loop of `Interface.claim_auto_ips` (source lines 922-932) over the
snapshot of AUTO records, threading the exclusion set and the list of
assigned addresses; an exception aborts the whole batch. -/
def claimAutoLoop (st : State) (pending : List SIP) (exclude_addresses : List Nat)
    (assigned : List SIP) : Except LinkError (State × List SIP) :=
  match pending with
  | [] => .ok (st, assigned)
  | auto_ip :: rest =>
    if auto_ip.ip == none then
      match st.claim_auto_ip auto_ip exclude_addresses with
      | .error e => .error e
      | .ok (st1, assigned_ip) =>
        claimAutoLoop st1 rest
          (match assigned_ip.ip with
           | some a => exclude_addresses ++ [a]
           | none => exclude_addresses)
          (assigned ++ [assigned_ip])
    else claimAutoLoop st rest exclude_addresses assigned

/-- `Interface.claim_auto_ips` (source lines 914-932). -/
def State.claim_auto_ips (st : State) (exclude_addresses : List Nat) :
    Except LinkError (State × List SIP) :=
  claimAutoLoop st (st.links.filter (fun r => r.alloc_type == .AUTO))
    exclude_addresses []

/-! ## Interface-type validation (`clean` of the interface subclasses) -/

/-- `INTERFACE_TYPE` (maasserver.enum). -/
inductive InterfaceType
  | PHYSICAL
  | BOND
  | BRIDGE
  | VLAN
  | UNKNOWN
deriving DecidableEq, Repr

/-- The interface attributes the `clean` validations read. -/
structure IfaceRec where
  id : Nat
  itype : InterfaceType
  mac_address : Option Nat
  node : Option Nat
deriving DecidableEq, Repr

/-- A Django `ValidationError` keyed by the offending field names. -/
inductive VErr
  | validationError (fields : List String)
deriving DecidableEq, Repr

/-- §7 of the spec labels a structural parent-rule violation (which the source
raises as a `ValidationError` on the `parents` field) `InvalidComposition`. -/
def InvalidComposition : VErr := .validationError ["parents"]

/-- `PhysicalInterface.clean` (source lines 1088-1118): required node and mac,
MAC uniqueness among all PhysicalInterface rows, and no parents. The
validation runs on a saved interface (`self.id is not None`). -/
def physical_clean (selfR : IfaceRec) (parents : List IfaceRec)
    (globalIfaces : List IfaceRec) : Except VErr Unit :=
  let missing := (if selfR.node == none then ["node"] else []) ++
    (if selfR.mac_address == none then ["mac_address"] else [])
  if missing.length > 0 then .error (.validationError missing)
  else
    let other_interfaces := globalIfaces.filter (fun r =>
      r.itype == .PHYSICAL && r.mac_address == selfR.mac_address && r.id != selfR.id)
    if other_interfaces.length > 0 then .error (.validationError ["mac_address"])
    else if parents.length > 0 then .error (.validationError ["parents"])
    else .ok ()

/-- `ChildInterface._validate_unique_or_parent_mac` (source lines 1181-1211):
computes the interfaces sharing this interface's MAC that are neither itself
nor part of its related family (`get_all_related_interfaces`, passed here as
`related_ids`). The source only emits a `maaslog.warning` naming the first of
them — it raises nothing — so this returns the offending list. -/
def validate_unique_or_parent_mac (selfR : IfaceRec) (globalIfaces : List IfaceRec)
    (related_ids : List Nat) : List IfaceRec :=
  (globalIfaces.filter (fun r => r.mac_address == selfR.mac_address)).filter
    (fun r => r.id != selfR.id && !related_ids.contains r.id)

/-- `BondInterface._validate_acceptable_parent_types` (source lines
1272-1277): the parent type set must equal `{PHYSICAL}`. -/
def bond_validate_acceptable_parent_types (parent_types : List InterfaceType) :
    Except VErr Unit :=
  if parent_types.all (fun t => t == .PHYSICAL) && !parent_types.isEmpty then .ok ()
  else .error (.validationError ["parents"])

/-- `BridgeInterface._validate_acceptable_parent_types` (source lines
1225-1230): bridges cannot contain other bridges. -/
def bridge_validate_acceptable_parent_types (parent_types : List InterfaceType) :
    Except VErr Unit :=
  if parent_types.contains .BRIDGE then .error (.validationError ["parents"])
  else .ok ()

/-- `ChildInterface._validate_parent_interfaces` (source lines 1162-1179):
all parents on one node, then the subclass's acceptable-parent-type check. -/
def validate_parent_interfaces (parents : List IfaceRec)
    (accept : List InterfaceType → Except VErr Unit) : Except VErr Unit :=
  if ((parents.map (fun p => p.node)).dedup).length > 1 then
    .error (.validationError ["parents"])
  else accept (parents.map (fun p => p.itype))

/-- `BondInterface.clean` (source lines 1261-1270): non-blank MAC, parent
validation, then the warn-only duplicate-MAC check. On success it returns the
list of interfaces the source would warn about. -/
def bond_clean (selfR : IfaceRec) (parents : List IfaceRec)
    (globalIfaces : List IfaceRec) (related_ids : List Nat) :
    Except VErr (List IfaceRec) :=
  if selfR.mac_address == none then .error (.validationError ["mac_address"])
  else
    match validate_parent_interfaces parents bond_validate_acceptable_parent_types with
    | .error e => .error e
    | .ok _ => .ok (validate_unique_or_parent_mac selfR globalIfaces related_ids)

/-- `BridgeInterface.clean` (source lines 1232-1240), same shape as
`BondInterface.clean`. -/
def bridge_clean (selfR : IfaceRec) (parents : List IfaceRec)
    (globalIfaces : List IfaceRec) (related_ids : List Nat) :
    Except VErr (List IfaceRec) :=
  if selfR.mac_address == none then .error (.validationError ["mac_address"])
  else
    match validate_parent_interfaces parents bridge_validate_acceptable_parent_types with
    | .error e => .error e
    | .ok _ => .ok (validate_unique_or_parent_mac selfR globalIfaces related_ids)

/-- `VLANInterface.clean` (source lines 1333-1368), on a saved interface:
exactly one parent, of type Physical/Bond/Bridge, and a non-null VLAN. -/
def vlan_clean (parents : List IfaceRec) (selfVlan : Option Nat) :
    Except VErr Unit :=
  if parents.length == 0 || parents.length > 1 then
    .error (.validationError ["parents"])
  else
    match parents.head? with
    | none => .error (.validationError ["parents"])
    | some parent =>
      if !(parent.itype == .PHYSICAL || parent.itype == .BOND ||
          parent.itype == .BRIDGE) then
        .error (.validationError ["parents"])
      else if selfVlan == none then .error (.validationError ["vlan"])
      else .ok ()

/-! ## VLAN migration of `update_ip_addresses` -/

/-- A subnet as seen by `Interface.update_ip_addresses`: looked up by CIDR,
carrying its VLAN. -/
structure DSubnet where
  cidrKey : Nat
  vlanId : Nat
deriving DecidableEq, Repr

/-- One iteration of the `Interface.update_ip_addresses` loop, restricted to
its effect on the subnet table and `self.vlan` (source lines 552-578): look
the observed CIDR up; when the subnet exists and its VLAN is not the
interface's current VLAN, log the migration and save the new VLAN. The
DISCOVERED-address bookkeeping of the same loop (source lines 580-630) never
touches `self.vlan`. The missing-subnet branch calls
`Subnet.objects.create_from_cidr`, which is not among the given sources;
modelled from the spec (§4.2): a minimal subnet record for the CIDR is added,
on the ambient default VLAN `d` (the spec leaves the VLAN/fabric assignment
for operator follow-up). The third component accumulates one entry per VLAN
migration (the source's `maaslog.info` on lines 564-565). -/
def observeStep (d : Nat) (acc : List DSubnet × Option Nat × List Nat) (k : Nat) :
    List DSubnet × Option Nat × List Nat :=
  match acc.1.find? (fun s => s.cidrKey == k) with
  | some s =>
    if some s.vlanId != acc.2.1 then (acc.1, some s.vlanId, acc.2.2 ++ [s.vlanId])
    else acc
  | none => (acc.1 ++ [⟨k, d⟩], acc.2.1, acc.2.2)

/-- The VLAN-migration aspect of `Interface.update_ip_addresses` (source
lines 534-578) over the list of observed CIDRs: returns the final subnet
table, the interface's final VLAN, and the migration log. -/
def update_ip_addresses_vlan (subnets : List DSubnet) (d : Nat)
    (vlan0 : Option Nat) (cidrs : List Nat) :
    List DSubnet × Option Nat × List Nat :=
  cidrs.foldl (observeStep d) (subnets, vlan0, [])

/-- The VLANs of the known subnets of the observed CIDRs, in observation
order. -/
def foundVlans (subnets : List DSubnet) (cidrs : List Nat) : List Nat :=
  cidrs.filterMap (fun k => (subnets.find? (fun s => s.cidrKey == k)).map (fun s => s.vlanId))

/-- The last element of `l`, or `dflt` when `l` is empty. -/
def lastVlan (l : List Nat) (dflt : Option Nat) : Option Nat :=
  match l with
  | [] => dflt
  | v :: rest => lastVlan rest (some v)

/-! ## Concrete instances used by witnesses and counterexamples -/

/-- An IPv4 subnet `[0, 100]` on VLAN 1 with no dynamic range. -/
def subA : Subnet := ⟨1, 1, 4, 0, 100, []⟩

/-- A second IPv4 subnet `[0, 100]` on VLAN 1. -/
def subB : Subnet := ⟨2, 1, 4, 0, 100, []⟩

/-- An IPv4 subnet `[10, 30]` with dynamic range `[15, 16]`. -/
def c2Sub : Subnet := ⟨3, 1, 4, 10, 30, [(15, 16)]⟩

/-- A one-address subnet `[9, 9]`. -/
def subOne : Subnet := ⟨7, 1, 4, 9, 9, []⟩

/-- A two-address subnet `[20, 21]`. -/
def subTwo : Subnet := ⟨8, 1, 4, 20, 21, []⟩

/-- An enabled interface on VLAN 1 with no address records at all. -/
def c1Wit : State := ⟨[], [], some 1, true, 0⟩

/-- A STATIC record used by the unlink half of the C1 witness. -/
def c1UnlinkRec : SIP := ⟨0, .STICKY, some 5, none⟩

/-- An enabled interface on VLAN 2 whose only link is `c1UnlinkRec`. -/
def c1UnlinkWit : State := ⟨[c1UnlinkRec], [], some 2, true, 1⟩

/-- An enabled interface with no links and no VLAN. -/
def c1Cex : State := ⟨[], [], none, true, 0⟩

/-- An interface holding a DHCP link on `subA` and a LINK_UP link, with an
unrelated record at ip 25 elsewhere in the database. -/
def c2Wit : State :=
  ⟨[⟨0, .DHCP, none, some subA⟩, ⟨1, .STICKY, none, none⟩],
    [⟨2, .STICKY, some 25, some c2Sub⟩], none, true, 3⟩

/-- Two unclaimed AUTO links on the two-address subnet `subTwo`. -/
def c3Wit : State :=
  ⟨[⟨0, .AUTO, none, some subTwo⟩, ⟨1, .AUTO, none, some subTwo⟩],
    [], some 1, true, 2⟩

/-- Two unclaimed AUTO links sharing the one-address subnet `subOne`. -/
def c3Exhaust : State :=
  ⟨[⟨0, .AUTO, none, some subOne⟩, ⟨1, .AUTO, none, some subOne⟩],
    [], some 1, true, 2⟩

/-- A STATIC link at ip 5 on `subA`. -/
def c4Rec : SIP := ⟨0, .STICKY, some 5, some subA⟩

/-- An interface whose only link is `c4Rec`. -/
def c4St : State := ⟨[c4Rec], [], none, true, 1⟩

/-- An enabled interface on VLAN 1 holding one STATIC link. -/
def c7Cex : State := ⟨[⟨0, .STICKY, some 5, some subA⟩], [], some 1, true, 1⟩

/-- An interface holding one AUTO link with no ip and no subnet. -/
def c8Cex : State := ⟨[⟨0, .AUTO, none, none⟩], [], some 1, true, 1⟩

/-- A physical parent interface on node 1. -/
def c5Phys : IfaceRec := ⟨1, .PHYSICAL, some 0x01, some 1⟩

/-- A bond on node 1 whose MAC 0xAA duplicates `c5Intruder`'s. -/
def c5Bond : IfaceRec := ⟨10, .BOND, some 0xAA, some 1⟩

/-- A physical interface on another node holding MAC 0xAA, outside the bond's
composition family. -/
def c5Intruder : IfaceRec := ⟨5, .PHYSICAL, some 0xAA, some 2⟩

/-- The interface table for the C5 scenario. -/
def c5Global : List IfaceRec := [c5Phys, c5Bond, c5Intruder]

/-- The bond's related family: just its parent. -/
def c5Related : List Nat := [1]

/-- A physical interface whose MAC duplicates `c5Intruder`'s. -/
def c5PhysDup : IfaceRec := ⟨11, .PHYSICAL, some 0xAA, some 3⟩

/-- A bridge on node 1 whose MAC 0xAA also duplicates `c5Intruder`'s. -/
def c5BridgeDup : IfaceRec := ⟨13, .BRIDGE, some 0xAA, some 1⟩

/-- A bridge parent on node 1 used by the C9 witness. -/
def c9Bridge : IfaceRec := ⟨2, .BRIDGE, some 0x02, some 1⟩

/-- A bond with a Physical parent and a Bridge parent. -/
def c9Bond : IfaceRec := ⟨12, .BOND, some 0xBB, some 1⟩

/-- Subnet table for the C6 scenario: CIDR 1 on VLAN 100, CIDR 2 on VLAN 200. -/
def c6Subnets : List DSubnet := [⟨1, 100⟩, ⟨2, 200⟩]

/-! ## Claim C10: idempotence of a same-subnet STATIC updateLink -/

/-- C10: `updateLink` on an existing STATIC link, called with mode STATIC,
the same subnet, and either no requested ip or the link's current ip, is a
no-op: it returns the very same link — id, ip, subnet and alloc_type
unchanged — and the state is untouched, so no other link is created or
deleted and repeating the identical call is idempotent. -/
theorem claim10_update_static_noop (st : State) (sip : SIP)
    (subnet : Option Subnet) (ipa : Option Nat)
    (hcur : sip.get_interface_link_type = .STATIC)
    (hsub : subnetEq sip.subnet subnet = true)
    (hip : ipa = none ∨ ipa = sip.ip) :
    st.update_ip_address sip .STATIC subnet ipa = .ok (st, sip) := by
  unfold State.update_ip_address
  rcases hip with h | h <;> simp [hcur, hsub, h]

/-- Witness for C10 at a concrete input: the STATIC link `c4Rec` on `subA`
updated to the same subnet with no requested ip. -/
theorem claim10_witness :
    (c4St.update_ip_address c4Rec .STATIC (some subA) none) = .ok (c4St, c4Rec) :=
  claim10_update_static_noop c4St c4Rec (some subA) none (by decide) (by decide)
    (Or.inl rfl)

/-! ## Claim C8: AUTO claim without a subnet -/

/-- C8 counterexample: on an interface whose AUTO link has no subnet,
`claim_auto_ips` fails with `StaticIPAddressUnavailable` — the very error
kind the spec calls AddressUnavailable — not with a distinct NoSubnet kind
(the source, lines 941-943, raises `StaticIPAddressUnavailable` there). -/
theorem claim8_counterexample :
    c8Cex.claim_auto_ips [] = .error .addressUnavailable := rfl

/-- C8 (amended): for every AUTO link with unset ip and no subnet,
`_claim_auto_ip` fails — without assigning an address — by raising
`StaticIPAddressUnavailable`, i.e. the same error kind as AddressUnavailable
rather than a distinct NoSubnet kind; `claim_auto_ips` propagates that
failure for the first such pending AUTO link. -/
theorem claim8_no_subnet_error (st : State) (a : SIP) (excl : List Nat)
    (hsub : a.subnet = none)
    (t : State) (b : SIP) (rest : List SIP)
    (hsnap : t.links.filter (fun r => r.alloc_type == .AUTO) = b :: rest)
    (hbip : b.ip = none) (hbsub : b.subnet = none) :
    st.claim_auto_ip a excl = .error .addressUnavailable ∧
    t.claim_auto_ips [] = .error .addressUnavailable := by
  constructor
  · unfold State.claim_auto_ip
    rw [hsub]
  · unfold State.claim_auto_ips
    rw [hsnap]
    unfold claimAutoLoop
    rw [hbip]
    unfold State.claim_auto_ip
    rw [hbsub]
    rfl

/-- Witness for C8 at a concrete input. -/
theorem claim8_witness :
    c8Cex.claim_auto_ip ⟨0, .AUTO, none, none⟩ [] = .error .addressUnavailable ∧
    c8Cex.claim_auto_ips [] = .error .addressUnavailable :=
  claim8_no_subnet_error c8Cex ⟨0, .AUTO, none, none⟩ [] rfl
    c8Cex ⟨0, .AUTO, none, none⟩ [] (by decide) rfl rfl

/-! ## Claim C2: STATIC link validation and cleanup -/

/-- C2: `linkSubnet` in STATIC mode with a requested ip fails with
`StaticIPAddressOutOfRange` when the ip is outside the given subnet or
inside one of its dynamic ranges; fails with `StaticIPAddressUnavailable`
when the range checks pass but some existing address record already holds
that exact ip; and whenever it succeeds, the resulting interface has no DHCP
link of the subnet's address family and no LINK_UP link left. -/
theorem claim2_link_static (st : State) (sub : Subnet) (ipa : Nat) :
    ((sub.containsIp ipa = false ∨ (sub.getDynamicRangeForIp ipa).isSome = true) →
        st.link_subnet .STATIC (some sub) (some ipa) none = .error .outOfRange)
    ∧ (sub.containsIp ipa = true → sub.getDynamicRangeForIp ipa = none →
        (st.globalRecords.any (fun r => r.ip == some ipa)) = true →
        st.link_subnet .STATIC (some sub) (some ipa) none = .error .addressUnavailable)
    ∧ (∀ st2 rec, st.link_subnet .STATIC (some sub) (some ipa) none = .ok (st2, rec) →
        ∀ r ∈ st2.links, dhcpRemovable (some sub.family) r = false ∧
          linkUpRemovable r = false) := by
  refine ⟨?_, ?_, ?_⟩
  · intro h
    unfold State.link_subnet State.link_subnet_static
    rcases h with h | h
    · simp [h]
    · cases hc : sub.containsIp ipa <;> simp [hc, h]
  · intro h1 h2 h3
    unfold State.link_subnet State.link_subnet_static staticClaimRequested
    simp [h1, h2, h3]
  · intro st2 rec h r hr
    simp only [State.link_subnet, State.link_subnet_static, staticClaimRequested] at h
    split at h
    · simp at h
    · split at h
      · simp at h
      · split at h
        · simp at h
        · split at h
          · simp at h
          · injection h with h1
            have h2 := congrArg Prod.fst h1
            simp only at h2
            rw [← h2] at hr
            simp only [finishStatic, State.remove_link_dhcp, State.remove_link_up] at hr
            rcases List.mem_filter.mp hr with ⟨hr2, hup⟩
            rcases List.mem_filter.mp hr2 with ⟨_, hdh⟩
            exact ⟨by simpa using hdh, by simpa using hup⟩

/-- Witness for C2 at concrete inputs: on `c2Wit`, requesting ip 40 (outside
`c2Sub`) fails OutOfRange, requesting ip 25 (held by another record) fails
AddressUnavailable, and the successful link at ip 20 leaves no same-family
DHCP link and no LINK_UP link. -/
theorem claim2_witness :
    c2Wit.link_subnet .STATIC (some c2Sub) (some 40) none = .error .outOfRange ∧
    c2Wit.link_subnet .STATIC (some c2Sub) (some 25) none = .error .addressUnavailable ∧
    (dhcpRemovable (some c2Sub.family) ⟨3, .STICKY, some 20, some c2Sub⟩ = false ∧
      linkUpRemovable ⟨3, .STICKY, some 20, some c2Sub⟩ = false) :=
  ⟨(claim2_link_static c2Wit c2Sub 40).1 (Or.inl (by decide)),
   (claim2_link_static c2Wit c2Sub 25).2.1 (by decide) (by decide) (by decide),
   (claim2_link_static c2Wit c2Sub 20).2.2
     ⟨[⟨3, .STICKY, some 20, some c2Sub⟩], [⟨2, .STICKY, some 25, some c2Sub⟩],
       none, true, 4⟩
     ⟨3, .STICKY, some 20, some c2Sub⟩ rfl
     ⟨3, .STICKY, some 20, some c2Sub⟩ (by decide)⟩

/-! ## Claim C1: ensure_link_up and the LINK_UP repair -/

lemma nonDiscovered_nil_all {st : State} (hnd : st.nonDiscovered = []) :
    ∀ r ∈ st.links, r.alloc_type = .DISCOVERED := by
  intro r hr
  unfold State.nonDiscovered at hnd
  have h := List.filter_eq_nil_iff.mp hnd r hr
  simpa using h

lemma ensure_link_up_empty (st : State) (v : Nat)
    (hv : st.vlan = some v) (hnd : st.nonDiscovered = []) :
    (st.ensure_link_up).nonDiscovered =
      [⟨st.nextId, .STICKY, none,
        (st.links.find? (discOnVlan v)).bind (fun r => r.subnet)⟩] := by
  have hall := nonDiscovered_nil_all hnd
  unfold State.ensure_link_up
  simp only [hnd, hv, List.length_nil, gt_iff_lt, lt_self_iff_false, if_false]
  unfold State.link_subnet_link_up State.remove_link_up State.remove_link_dhcp
  have h1 : st.links.filter (fun r => !linkUpRemovable r) = st.links := by
    apply List.filter_eq_self.mpr
    intro a ha
    simp [linkUpRemovable, hall a ha]
  unfold State.nonDiscovered
  simp only [h1]
  unfold State.nonDiscovered at hnd
  have h2 : ∀ (fam : Option Nat) (x : Option Subnet),
      (st.links ++ [(⟨st.nextId, .STICKY, none, x⟩ : SIP)]).filter
        (fun r => !dhcpRemovable fam r) = st.links ++ [(⟨st.nextId, .STICKY, none, x⟩ : SIP)] := by
    intro fam x
    apply List.filter_eq_self.mpr
    intro a ha
    rcases List.mem_append.mp ha with ha | ha
    · simp [dhcpRemovable, hall a ha]
    · simp only [List.mem_singleton] at ha
      subst ha
      simp [dhcpRemovable, SIP.get_interface_link_type]
  simp only [h2]
  rw [List.filter_append, hnd]
  simp

/-- C1 (amended): the LINK_UP repair needs the interface to be connected to a
VLAN. For every (enabled) interface on a VLAN with zero non-DISCOVERED
address links and no discovered subnet on that VLAN, `ensure_link_up` creates
exactly one STICKY link with null ip and null subnet; and `unlink_ip_address`
on an enabled interface on a VLAN, when not clearing the whole configuration,
re-establishes a LINK_UP link whenever the removal leaves no non-DISCOVERED
link behind. (Without a VLAN, `ensure_link_up` creates nothing — see the
counterexample.) -/
theorem claim1_ensure_link_up (st : State) (v : Nat)
    (_hen : st.enabled = true) (hv : st.vlan = some v)
    (hnd : st.nonDiscovered = [])
    (hnodisc : st.links.all (fun r => !discOnVlan v r) = true)
    (t : State) (w : Nat) (ipa : SIP)
    (hten : t.enabled = true) (htv : t.vlan = some w)
    (htnd : (t.deleteLink ipa).nonDiscovered = []) :
    (st.ensure_link_up).nonDiscovered = [⟨st.nextId, .STICKY, none, none⟩]
    ∧ ((t.unlink_ip_address ipa false).nonDiscovered).map
        (fun r => r.get_interface_link_type) = [.LINK_UP] := by
  constructor
  · have hfind : st.links.find? (discOnVlan v) = none := by
      rw [List.find?_eq_none]
      intro x hx
      have h := List.all_eq_true.mp hnodisc x hx
      simpa using h
    have h := ensure_link_up_empty st v hv hnd
    rw [hfind] at h
    simpa using h
  · have hdel : t.unlink_ip_address ipa false = (t.deleteLink ipa).ensure_link_up := by
      unfold State.unlink_ip_address State.unlink_static_ip State.deleteLink
      simp [hten]
    rw [hdel]
    have h := ensure_link_up_empty (t.deleteLink ipa) w
      (show (t.deleteLink ipa).vlan = some w from htv) htnd
    rw [h]
    simp [SIP.get_interface_link_type]

/-- Witness for C1 at concrete inputs: `ensure_link_up` on the linkless
enabled interface `c1Wit` (VLAN 1), and unlink of the sole STATIC link of
`c1UnlinkWit` (VLAN 2). -/
theorem claim1_witness :
    (c1Wit.ensure_link_up).nonDiscovered = [⟨0, .STICKY, none, none⟩] ∧
    ((c1UnlinkWit.unlink_ip_address c1UnlinkRec false).nonDiscovered).map
      (fun r => r.get_interface_link_type) = [.LINK_UP] :=
  claim1_ensure_link_up c1Wit 1 rfl rfl rfl (by decide)
    c1UnlinkWit 2 c1UnlinkRec rfl rfl (by decide)

/-- C1 counterexample: `c1Cex` is enabled with zero non-DISCOVERED links,
yet `ensure_link_up` establishes nothing because the interface has no VLAN
(the source's `elif self.vlan is not None`, line 803, guards the repair). -/
theorem claim1_counterexample :
    c1Cex.enabled = true ∧ c1Cex.nonDiscovered = [] ∧
    (c1Cex.ensure_link_up).nonDiscovered = [] :=
  ⟨rfl, rfl, rfl⟩

/-! ## Claim C7: clear_all_links -/

lemma unlink_clearing_eq_delete (st : State) (r : SIP) :
    st.unlink_ip_address r true = st.deleteLink r := by
  unfold State.unlink_ip_address State.unlink_static_ip
  simp

lemma clear_true_foldl (l : List SIP) (st : State) :
    (l.foldl (fun s r => s.unlink_ip_address r true) st).links
      = st.links.filter (fun x => l.all (fun r => x.id != r.id)) := by
  induction l generalizing st with
  | nil => simp
  | cons a tl ih =>
    rw [List.foldl_cons,
      show st.unlink_ip_address a true = st.deleteLink a from
        unlink_clearing_eq_delete st a, ih]
    unfold State.deleteLink
    rw [List.filter_filter]
    apply List.filter_congr
    intro x _
    simp [List.all_cons, Bool.and_comm]

/-- C7 (amended): `clear_all_links` removes every non-DISCOVERED link with no
LINK_UP re-established only when called with `clearing_config=True`; with
that flag the interface always ends with zero non-DISCOVERED links. (With
the default `clearing_config=False` the unlink auto-repair runs and an
enabled interface on a VLAN ends with a LINK_UP link — see the
counterexample.) -/
theorem claim7_clear_with_flag (st : State) :
    (st.clear_all_links true).nonDiscovered = [] := by
  have h := clear_true_foldl st.nonDiscovered st
  unfold State.clear_all_links
  unfold State.nonDiscovered
  unfold State.nonDiscovered at h
  rw [h, List.filter_filter, List.filter_eq_nil_iff]
  intro x hx
  rw [Bool.and_eq_true]
  rintro ⟨h1, h2⟩
  have hmem : x ∈ st.links.filter (fun r => r.alloc_type != .DISCOVERED) :=
    List.mem_filter.mpr ⟨hx, h1⟩
  have hself := List.all_eq_true.mp h2 x hmem
  simp at hself

/-- C7 counterexample: `clear_all_links` with its default
`clearing_config=False` on the enabled interface `c7Cex` (VLAN 1, one STATIC
link) does not end with zero non-DISCOVERED links — the unlink path
re-establishes a LINK_UP link. -/
theorem claim7_counterexample :
    (c7Cex.clear_all_links false).nonDiscovered = [⟨1, .STICKY, none, none⟩] ∧
    (c7Cex.clear_all_links false).nonDiscovered ≠ [] :=
  ⟨rfl, by decide⟩

/-! ## Claim C4: id preservation of STATIC to STATIC updateLink -/

lemma link_subnet_static_swap_shape (st : State) (s : Option Subnet)
    (i : Option Nat) (old : SIP) :
    (∃ e, st.link_subnet_static s i none (some old) = .error e) ∨
    (∃ st2 c, st.link_subnet_static s i none (some old) =
      .ok (st2, (⟨old.id, .STICKY, some c, s⟩ : SIP))) := by
  unfold State.link_subnet_static staticClaimRequested staticAllocated
  simp only [Option.getD]
  split
  · exact Or.inl ⟨_, rfl⟩
  · split
    · split
      · split
        · exact Or.inl ⟨_, rfl⟩
        · split
          · exact Or.inl ⟨_, rfl⟩
          · split
            · exact Or.inl ⟨_, rfl⟩
            · exact Or.inr ⟨_, _, rfl⟩
      · split
        · exact Or.inl ⟨_, rfl⟩
        · exact Or.inr ⟨_, _, rfl⟩
    · split
      · exact Or.inl ⟨_, rfl⟩
      · exact Or.inr ⟨_, _, rfl⟩

lemma update_static_keeps_id (st : State) (sip : SIP) (s : Option Subnet)
    (i : Option Nat) (st2 : State) (r : SIP)
    (hcur : sip.get_interface_link_type = .STATIC)
    (h : st.update_ip_address sip .STATIC s i = .ok (st2, r)) :
    r.id = sip.id ∧ r.get_interface_link_type = .STATIC := by
  have key : ∀ (i2 : Option Nat),
      st.link_subnet_static s i2 none (some sip) = .ok (st2, r) →
      r.id = sip.id ∧ r.get_interface_link_type = .STATIC := by
    intro i2 h2
    rcases link_subnet_static_swap_shape st s i2 sip with ⟨e, he⟩ | ⟨st3, c, he⟩
    · rw [he] at h2
      simp at h2
    · rw [he] at h2
      injection h2 with h3
      have h4 := congrArg Prod.snd h3
      simp only at h4
      subst h4
      exact ⟨rfl, rfl⟩
  have h' : (if sip.get_interface_link_type == .STATIC then
      (if subnetEq sip.subnet s && (i == none || sip.ip == i) then
        Except.ok (st, sip) else st.swap_subnet sip s i)
      else st.link_subnet_static s i none (some sip)) = .ok (st2, r) := h
  split at h'
  · split at h'
    · injection h' with h1
      have h2 := congrArg Prod.snd h1
      simp only at h2
      subst h2
      exact ⟨rfl, hcur⟩
    · unfold State.swap_subnet at h'
      split at h'
      · split at h'
        · simp at h'
        · exact key _ h'
      · exact key none h'
  · next hcond =>
    rw [hcur] at hcond
    exact absurd rfl hcond

/-- C4: `updateLink` on a STATIC link with mode STATIC preserves the link's
id on success (the re-link to a new subnet swaps the fresh record's id with
the old one's before deleting the old record), so
`updateLink(id, STATIC, subnetA, ipA)` followed by
`updateLink(id, STATIC, subnetB, ipB)` keeps the original id throughout. -/
theorem claim4_update_static_preserves_id (st : State) (sip : SIP)
    (sA sB : Option Subnet) (iA iB : Option Nat)
    (st1 st2 : State) (r1 r2 : SIP)
    (hcur : sip.get_interface_link_type = .STATIC)
    (h1 : st.update_ip_address sip .STATIC sA iA = .ok (st1, r1))
    (h2 : st1.update_ip_address r1 .STATIC sB iB = .ok (st2, r2)) :
    r1.id = sip.id ∧ r2.id = sip.id := by
  obtain ⟨e1, t1⟩ := update_static_keeps_id st sip sA iA st1 r1 hcur h1
  obtain ⟨e2, _⟩ := update_static_keeps_id st1 r1 sB iB st2 r2 t1 h2
  exact ⟨e1, e2.trans e1⟩

/-- Witness for C4 at a concrete input: the STATIC link `c4Rec` (id 0) moved
from `subA` at ip 5 to `subB` at ip 7, then to `subA` at ip 9, keeps id 0. -/
theorem claim4_witness :
    ((⟨0, .STICKY, some 7, some subB⟩ : SIP).id = c4Rec.id) ∧
    ((⟨0, .STICKY, some 9, some subA⟩ : SIP).id = c4Rec.id) :=
  claim4_update_static_preserves_id c4St c4Rec (some subB) (some subA)
    (some 7) (some 9)
    ⟨[⟨0, .STICKY, some 7, some subB⟩], [], none, true, 2⟩
    ⟨[⟨0, .STICKY, some 9, some subA⟩], [], none, true, 3⟩
    ⟨0, .STICKY, some 7, some subB⟩ ⟨0, .STICKY, some 9, some subA⟩
    (by decide) rfl rfl

/-! ## Claim C3: no duplicate addresses within one claim_auto_ips batch -/

lemma contains_false_not_mem {l : List Nat} {c : Nat}
    (h : l.contains c = false) : c ∉ l := by
  intro hm
  have h2 : l.elem c = true := List.elem_iff.mpr hm
  rw [show l.contains c = l.elem c from rfl, h2] at h
  cases h

lemma mem_contains_true {l : List Nat} {c : Nat} (h : c ∈ l) :
    l.contains c = true := by
  rw [show l.contains c = l.elem c from rfl]
  exact List.elem_iff.mpr h

lemma allocate_new_not_excluded {g : List SIP} {s : Option Subnet}
    {t : AllocType} {excl : List Nat} {c : Nat}
    (h : allocate_new g s t excl = .ok c) : c ∉ excl := by
  unfold allocate_new at h
  split at h
  · simp at h
  · split at h
    · next c2 heq =>
      injection h with h1
      subst h1
      have hp := List.find?_some heq
      unfold allocGood at hp
      simp only [Bool.and_eq_true, Bool.not_eq_true'] at hp
      exact contains_false_not_mem hp.1.1
    · simp at h

lemma claim_auto_ip_fresh (st : State) (a : SIP) (excl : List Nat)
    (st2 : State) (r : SIP)
    (h : st.claim_auto_ip a excl = .ok (st2, r)) :
    ∃ c, r.ip = some c ∧ c ∉ excl := by
  unfold State.claim_auto_ip at h
  split at h
  · simp at h
  · split at h
    · simp at h
    · next c heq =>
      injection h with h1
      have h2 := congrArg Prod.snd h1
      simp only at h2
      subst h2
      exact ⟨c, rfl, allocate_new_not_excluded heq⟩

lemma claimAutoLoop_pairwise (pending : List SIP) :
    ∀ (st : State) (excl : List Nat) (acc : List SIP),
    (∀ r ∈ acc, ∃ a, r.ip = some a ∧ a ∈ excl) →
    acc.Pairwise (fun x y => x.ip ≠ y.ip) →
    ∀ st2 out, claimAutoLoop st pending excl acc = .ok (st2, out) →
    out.Pairwise (fun x y => x.ip ≠ y.ip) := by
  induction pending with
  | nil =>
    intro st excl acc hinv hpw st2 out h
    unfold claimAutoLoop at h
    injection h with h1
    have h2 := congrArg Prod.snd h1
    simp only at h2
    rwa [← h2]
  | cons a rest ih =>
    intro st excl acc hinv hpw st2 out h
    unfold claimAutoLoop at h
    split at h
    · split at h
      · cases h
      · next st1 aip heq =>
        obtain ⟨c, hcip, hcex⟩ := claim_auto_ip_fresh st a excl st1 aip heq
        rw [hcip] at h
        refine ih st1 (excl ++ [c]) (acc ++ [aip]) ?_ ?_ st2 out h
        · intro x hx
          rcases List.mem_append.mp hx with hx | hx
          · obtain ⟨b, hb, hbin⟩ := hinv x hx
            exact ⟨b, hb, List.mem_append_left _ hbin⟩
          · simp only [List.mem_singleton] at hx
            subst hx
            exact ⟨c, hcip, List.mem_append_right _ (List.mem_singleton_self c)⟩
        · rw [List.pairwise_append]
          refine ⟨hpw, List.pairwise_singleton _ _, ?_⟩
          intro x hx y hy
          simp only [List.mem_singleton] at hy
          subst hy
          obtain ⟨b, hb, hbin⟩ := hinv x hx
          rw [hb, hcip]
          intro hcon
          injection hcon with hbc
          exact hcex (hbc ▸ hbin)
    · exact ih st excl acc hinv hpw st2 out h

/-- C3: within one `claim_auto_ips` batch no two returned links carry the
same ip — each claimed address joins the exclusion set passed to the later
allocations of the batch — and on `c3Exhaust` (two unclaimed AUTO links
sharing a one-address subnet) the second claim fails with the pool-exhausted
error instead of reusing the address. -/
theorem claim3_claim_auto_no_dup (st : State) (excl : List Nat)
    (st2 : State) (out : List SIP)
    (h : st.claim_auto_ips excl = .ok (st2, out)) :
    out.Pairwise (fun x y => x.ip ≠ y.ip) ∧
    c3Exhaust.claim_auto_ips [] = .error .poolExhausted := by
  constructor
  · exact claimAutoLoop_pairwise _ st excl [] (by simp) (by simp) st2 out h
  · rfl

/-- Witness for C3 at a concrete input: the successful batch on `c3Wit`
claims the two distinct addresses 20 and 21. -/
theorem claim3_witness :
    ([⟨2, .AUTO, some 20, some subTwo⟩, ⟨3, .AUTO, some 21, some subTwo⟩] :
      List SIP).Pairwise (fun x y => x.ip ≠ y.ip) ∧
    c3Exhaust.claim_auto_ips [] = .error .poolExhausted :=
  claim3_claim_auto_no_dup c3Wit []
    ⟨[⟨2, .AUTO, some 20, some subTwo⟩, ⟨3, .AUTO, some 21, some subTwo⟩],
      [], some 1, true, 4⟩
    [⟨2, .AUTO, some 20, some subTwo⟩, ⟨3, .AUTO, some 21, some subTwo⟩] rfl

/-! ## Claim C9: composition rules -/

lemma mac_beq_none_false {m : Option Nat} (h : m ≠ none) : (m == none) = false := by
  cases hm : m
  · exact absurd hm h
  · rfl

/-- C9: structural composition rules are enforced on persist: the clean of a
Bond whose parent set contains any non-Physical interface fails with the
parent-rule ValidationError — the spec's InvalidComposition — and the clean
of a VLAN interface with two parents fails with the same error. -/
theorem claim9_composition_rules (selfB : IfaceRec) (parents : List IfaceRec)
    (g : List IfaceRec) (rel : List Nat)
    (hmac : selfB.mac_address ≠ none)
    (hnode : ((parents.map (fun p => p.node)).dedup).length ≤ 1)
    (p : IfaceRec) (hp : p ∈ parents) (hnp : p.itype ≠ .PHYSICAL)
    (p1 p2 : IfaceRec) (vl : Option Nat) :
    bond_clean selfB parents g rel = .error InvalidComposition ∧
    vlan_clean [p1, p2] vl = .error InvalidComposition := by
  constructor
  · have hm := mac_beq_none_false hmac
    have ht : ((parents.map (fun q => q.itype)).all (fun t2 => t2 == .PHYSICAL)) = false := by
      apply List.all_eq_false.mpr
      exact ⟨p.itype, List.mem_map_of_mem _ hp, by simpa using hnp⟩
    unfold bond_clean validate_parent_interfaces bond_validate_acceptable_parent_types
      InvalidComposition
    simp [hm, ht, show ¬(((parents.map (fun q => q.node)).dedup).length > 1) from by omega]
  · unfold vlan_clean InvalidComposition
    simp

/-- Witness for C9 at concrete inputs: the bond `c9Bond` over one Physical
and one Bridge parent, and a VLAN interface over two parents. -/
theorem claim9_witness :
    bond_clean c9Bond [c5Phys, c9Bridge] c5Global [] = .error InvalidComposition ∧
    vlan_clean [c5Phys, c9Bridge] (some 1) = .error InvalidComposition :=
  claim9_composition_rules c9Bond [c5Phys, c9Bridge] c5Global []
    (by decide) (by decide) c9Bridge (by decide) (by decide) c5Phys c9Bridge
    (some 1)

/-! ## Claim C5: duplicate MAC outside the composition family -/

/-- C5 counterexample: the bond `c5Bond` carries MAC 0xAA, which belongs to
`c5Intruder` — an interface outside its composition family — yet
`bond_clean` succeeds, merely reporting `c5Intruder` in the warn-only list
(the source's `_validate_unique_or_parent_mac` only calls `maaslog.warning`),
instead of failing with a duplicate-MAC validation error the way
`PhysicalInterface.clean` does. -/
theorem claim5_counterexample :
    (c5Intruder.mac_address = c5Bond.mac_address ∧ c5Intruder.id ≠ c5Bond.id ∧
      c5Intruder.id ∉ c5Related) ∧
    bond_clean c5Bond [c5Phys] c5Global c5Related = .ok [c5Intruder] :=
  ⟨⟨rfl, by decide, by decide⟩, rfl⟩

lemma intruder_in_warns (selfR : IfaceRec) (g : List IfaceRec) (rel : List Nat)
    (intruder : IfaceRec) (hin : intruder ∈ g)
    (hdup : intruder.mac_address = selfR.mac_address)
    (hnid : intruder.id ≠ selfR.id) (hnrel : intruder.id ∉ rel) :
    intruder ∈ validate_unique_or_parent_mac selfR g rel := by
  unfold validate_unique_or_parent_mac
  apply List.mem_filter.mpr
  refine ⟨List.mem_filter.mpr ⟨hin, by simp [hdup]⟩, ?_⟩
  have hc : rel.contains intruder.id = false := by
    cases hc2 : rel.contains intruder.id
    · rfl
    · exact absurd (List.elem_iff.mp hc2) hnrel
  simp [hnid, hc, hnrel]

/-- C5 (amended): persisting a Bond or a Bridge whose MAC equals the MAC of
an interface outside its composition family does NOT fail: its clean
succeeds — under the usual valid-parent side conditions — and only reports
the conflicting interface for a log warning; by contrast, persisting a
Physical interface whose MAC is already used by another Physical interface
does fail with a duplicate-MAC ValidationError. -/
theorem claim5_duplicate_mac (selfR : IfaceRec) (parents : List IfaceRec)
    (g : List IfaceRec) (rel : List Nat)
    (hmac : selfR.mac_address ≠ none)
    (hnode : ((parents.map (fun p => p.node)).dedup).length ≤ 1)
    (htypes : (parents.map (fun p => p.itype)).all (fun t2 => t2 == .PHYSICAL) = true)
    (hne : parents ≠ [])
    (intruder : IfaceRec) (hin : intruder ∈ g)
    (hdup : intruder.mac_address = selfR.mac_address)
    (hnid : intruder.id ≠ selfR.id) (hnrel : intruder.id ∉ rel)
    (selfBr : IfaceRec) (bparents : List IfaceRec)
    (bg : List IfaceRec) (brel : List Nat)
    (hbmac : selfBr.mac_address ≠ none)
    (hbnode : ((bparents.map (fun p => p.node)).dedup).length ≤ 1)
    (hbtypes : (bparents.map (fun p => p.itype)).contains .BRIDGE = false)
    (bintruder : IfaceRec) (hbin : bintruder ∈ bg)
    (hbdup : bintruder.mac_address = selfBr.mac_address)
    (hbnid : bintruder.id ≠ selfBr.id) (hbnrel : bintruder.id ∉ brel)
    (pR : IfaceRec) (pg : List IfaceRec)
    (hpn : pR.node ≠ none) (hpm : pR.mac_address ≠ none)
    (hpdup : (pg.filter (fun r2 => r2.itype == .PHYSICAL &&
        r2.mac_address == pR.mac_address && r2.id != pR.id)).length > 0) :
    (∃ warns, bond_clean selfR parents g rel = .ok warns ∧ intruder ∈ warns) ∧
    (∃ warns, bridge_clean selfBr bparents bg brel = .ok warns ∧
      bintruder ∈ warns) ∧
    physical_clean pR [] pg = .error (.validationError ["mac_address"]) := by
  refine ⟨?_, ?_, ?_⟩
  · have hm := mac_beq_none_false hmac
    have hnotempty : (parents.map (fun p => p.itype)).isEmpty = false := by
      cases parents with
      | nil => exact absurd rfl hne
      | cons a l => rfl
    refine ⟨validate_unique_or_parent_mac selfR g rel, ?_,
      intruder_in_warns selfR g rel intruder hin hdup hnid hnrel⟩
    unfold bond_clean validate_parent_interfaces
      bond_validate_acceptable_parent_types
    simp [hm, htypes, hnotempty,
      show ¬(((parents.map (fun q => q.node)).dedup).length > 1) from by omega]
  · have hm := mac_beq_none_false hbmac
    have hb2 : ¬∃ a ∈ bparents, a.itype = InterfaceType.BRIDGE := by
      rintro ⟨a, ha, hat⟩
      have hmem : InterfaceType.BRIDGE ∈ bparents.map (fun p => p.itype) :=
        hat ▸ List.mem_map_of_mem _ ha
      have h3 := List.elem_iff.mpr hmem
      rw [show (bparents.map (fun p => p.itype)).contains InterfaceType.BRIDGE
          = (bparents.map (fun p => p.itype)).elem InterfaceType.BRIDGE from rfl,
        h3] at hbtypes
      cases hbtypes
    refine ⟨validate_unique_or_parent_mac selfBr bg brel, ?_,
      intruder_in_warns selfBr bg brel bintruder hbin hbdup hbnid hbnrel⟩
    unfold bridge_clean validate_parent_interfaces
      bridge_validate_acceptable_parent_types
    simp [hm, hb2,
      show ¬(((bparents.map (fun q => q.node)).dedup).length > 1) from by omega]
  · have hpm2 := mac_beq_none_false hpm
    have hpn2 : (pR.node == none) = false := by
      cases hn : pR.node
      · exact absurd hn hpn
      · rfl
    unfold physical_clean
    simp [hpn2, hpm2, hpdup]

/-- Witness for C5 at concrete inputs: the bond `c5Bond` and the bridge
`c5BridgeDup`, each carrying the out-of-family MAC of `c5Intruder`, persist
with only a warning naming it, while the physical interface `c5PhysDup`
duplicating that MAC fails validation. -/
theorem claim5_witness :
    (∃ warns, bond_clean c5Bond [c5Phys] c5Global c5Related = .ok warns ∧
      c5Intruder ∈ warns) ∧
    (∃ warns, bridge_clean c5BridgeDup [c5Phys] c5Global c5Related = .ok warns ∧
      c5Intruder ∈ warns) ∧
    physical_clean c5PhysDup [] [c5Intruder, c5PhysDup] =
      .error (.validationError ["mac_address"]) :=
  claim5_duplicate_mac c5Bond [c5Phys] c5Global c5Related (by decide) (by decide)
    (by decide) (by decide) c5Intruder (by decide) rfl (by decide) (by decide)
    c5BridgeDup [c5Phys] c5Global c5Related (by decide) (by decide) (by decide)
    c5Intruder (by decide) rfl (by decide) (by decide)
    c5PhysDup [c5Intruder, c5PhysDup] (by decide) (by decide) (by decide)

/-! ## Claim C6: VLAN migration while observing discovered CIDRs -/

lemma observe_fold_vlan (d : Nat) (cidrs : List Nat) :
    ∀ (subnets : List DSubnet) (vlan0 : Option Nat) (log : List Nat),
    (∀ k ∈ cidrs, ((subnets.find? (fun s => s.cidrKey == k)).isSome) = true) →
    (cidrs.foldl (observeStep d) (subnets, vlan0, log)).2.1 =
      lastVlan (foundVlans subnets cidrs) vlan0 := by
  induction cidrs with
  | nil =>
    intro subnets vlan0 log _
    simp [foundVlans, lastVlan]
  | cons k rest ih =>
    intro subnets vlan0 log hf
    have hk := hf k (List.mem_cons_self k rest)
    cases hfind : subnets.find? (fun s => s.cidrKey == k) with
    | none => rw [hfind] at hk; simp at hk
    | some s =>
      have hstep : observeStep d (subnets, vlan0, log) k =
          (subnets, some s.vlanId,
            if some s.vlanId != vlan0 then log ++ [s.vlanId] else log) := by
        unfold observeStep
        simp only [hfind]
        cases hbc : some s.vlanId != vlan0 with
        | true => simp [hbc]
        | false =>
          have he : some s.vlanId = vlan0 := by simpa using hbc
          simp [hbc, he]
      have hfv : foundVlans subnets (k :: rest) = s.vlanId :: foundVlans subnets rest := by
        unfold foundVlans
        rw [List.filterMap_cons, hfind]
        rfl
      rw [List.foldl_cons, hstep,
        ih subnets (some s.vlanId) _ (fun k2 hk2 => hf k2 (List.mem_cons_of_mem _ hk2)),
        hfv]
      rfl

/-- C6 (amended): during one `update_ip_addresses` call the interface's VLAN
is updated at every observed prefix whose known subnet's VLAN differs from
the interface's then-current VLAN — possibly several times in one call, not
exactly once (see the counterexample) — so when every observed CIDR has a
known subnet the final VLAN is that of the last observed subnet
(last-observed-wins), or stays unchanged when no prefix is found. -/
theorem claim6_vlan_migration (subnets : List DSubnet) (d : Nat)
    (vlan0 : Option Nat) (cidrs : List Nat)
    (hfound : ∀ k ∈ cidrs, ((subnets.find? (fun s => s.cidrKey == k)).isSome) = true) :
    (update_ip_addresses_vlan subnets d vlan0 cidrs).2.1 =
      lastVlan (foundVlans subnets cidrs) vlan0 :=
  observe_fold_vlan d cidrs subnets vlan0 [] hfound

/-- C6 counterexample: observing CIDR 1 (subnet on VLAN 100) and then CIDR 2
(subnet on VLAN 200) on an interface currently on VLAN 1 migrates the VLAN
twice within the one call — to 100 and then to 200 — not exactly once to the
VLAN of the first disagreeing prefix. -/
theorem claim6_counterexample :
    (update_ip_addresses_vlan c6Subnets 999 (some 1) [1, 2]).2.2 = [100, 200] ∧
    (update_ip_addresses_vlan c6Subnets 999 (some 1) [1, 2]).2.1 = some 200 :=
  ⟨rfl, rfl⟩

/-- Witness for C6 at a concrete input. -/
theorem claim6_witness :
    (update_ip_addresses_vlan c6Subnets 999 (some 1) [1, 2]).2.1 =
      lastVlan (foundVlans c6Subnets [1, 2]) (some 1) :=
  claim6_vlan_migration c6Subnets 999 (some 1) [1, 2] (by decide)

end Maas
